import Mathlib

/-!
Verification of the `CellOpt<T>` container (src/src/lib.rs).

The container is `struct CellOpt<T> { slot: Cell<Option<T>> }`: a single
interior-mutable slot holding zero or one value.  We model the slot state
as `Option T` and each method as an explicit state-passing function
`Option T → result × Option T`, translated line by line from the Rust
source.  `Cell::take` replaces the slot content with `None` and returns
the previous content; `Cell::replace(Some v)` sets it to `Some v`.
Composite operations (`apply_then_restore`, `is_occupied`, `insert`, …)
are built from `take`/`overwrite` exactly as in the source.
-/

namespace CellOpt

/-- The `Error` enum of the source: `Occupied` and `Empty`. -/
inductive Error : Type where
  | occupied : Error
  | empty : Error
deriving DecidableEq, Repr

/-- The `InsertErr<T>` struct of the source: the rejected value
(`insert_try`) together with the error kind (`err`). -/
structure InsertErr (T : Type) where
  insert_try : T
  err : Error
deriving Repr

/-- `CellOpt::new(value)`: `Cell::new(value.into())`, i.e. the slot holds
`Some value`. -/
def new {T : Type} (value : T) : Option T :=
  some value

/-- `Default for CellOpt`: `Cell::new(None)`, i.e. the slot is empty. -/
def defaultCell (T : Type) : Option T :=
  none

/-- `CellOpt::take`: `self.slot.take().ok_or(Error::Empty)`.
`Cell::take` leaves `None` in the slot; the previous content is
converted to a `Result` via `ok_or`. -/
def take {T : Type} (s : Option T) : Except Error T × Option T :=
  match s with
  | some v => (Except.ok v, none)
  | none => (Except.error Error.empty, none)

/-- `CellOpt::overwrite`: `self.slot.replace(Some(value))`. -/
def overwrite {T : Type} (_s : Option T) (value : T) : Option T :=
  some value

/-- `CellOpt::apply_then_restore`: `self.take().map(|t| { let u = f(&t);
self.overwrite(t); u }).ok()`.  Returns the produced `Option U` together
with the final slot state. -/
def apply_then_restore {T U : Type} (f : T → U) (s : Option T) :
    Option U × Option T :=
  match take s with
  | (Except.ok t, s1) => (some (f t), overwrite s1 t)
  | (Except.error _, s1) => (none, s1)

/-- `CellOpt::apply_then_restore` with the callback's `FnMut` capture
state made explicit: the source's `f: F` is `FnMut(&T) -> U`, so the
callback may mutate its captured environment `S`.  The function returns
the produced `Option U`, the callback's final capture state, and the
final slot state.  On the `Err` branch of `take()`, `map` never runs, so
the capture state is returned untouched. -/
def apply_then_restore_fnmut {S T U : Type} (f : S → T → S × U) (fs : S)
    (s : Option T) : Option U × S × Option T :=
  match take s with
  | (Except.ok t, s1) =>
      match f fs t with
      | (fs1, u) => (some u, fs1, overwrite s1 t)
  | (Except.error _, s1) => (none, fs, s1)

/-- `CellOpt::apply_and_update`: `if let Ok(t) = self.take() {
self.overwrite(f(t)); }`. -/
def apply_and_update {T : Type} (f : T → T) (s : Option T) : Option T :=
  match take s with
  | (Except.ok t, s1) => overwrite s1 (f t)
  | (Except.error _, s1) => s1

/-- `CellOpt::is_occupied`: `if let Ok(value) = self.take() {
self.overwrite(value); true } else { false }`. -/
def is_occupied {T : Type} (s : Option T) : Bool × Option T :=
  match take s with
  | (Except.ok value, s1) => (true, overwrite s1 value)
  | (Except.error _, s1) => (false, s1)

/-- `CellOpt::insert`: if `self.is_occupied()` then
`Err(InsertErr { insert_try: value, err: Error::Occupied })`, else
`self.overwrite(value); Ok(())`. -/
def insert {T : Type} (s : Option T) (value : T) :
    Except (InsertErr T) Unit × Option T :=
  match is_occupied s with
  | (true, s1) => (Except.error ⟨value, Error.occupied⟩, s1)
  | (false, s1) => (Except.ok (), overwrite s1 value)

/-- `CellOpt::force_take`: `self.take().unwrap()`.  `unwrap` panics on
the `Err` branch; the panic is modelled as `none` (no value, no
post-state is ever returned to the caller). -/
def force_take {T : Type} (s : Option T) : Option (T × Option T) :=
  match take s with
  | (Except.ok v, s1) => some (v, s1)
  | (Except.error _, _) => none

/-- `CellOpt::clone_inner`: `self.apply_then_restore(|inner|
inner.clone())`.  `T`'s `Clone` implementation is the parameter
`cloneT`. -/
def clone_inner {T : Type} (cloneT : T → T) (s : Option T) :
    Option T × Option T :=
  apply_then_restore cloneT s

/-- `Clone for CellOpt`: `self.apply_then_restore(|inner|
CellOpt::new(inner.clone())).unwrap_or_default()`.  Returns the new
container's slot state together with the original's final slot state. -/
def cellopt_clone {T : Type} (cloneT : T → T) (s : Option T) :
    Option T × Option T :=
  match apply_then_restore (fun inner => new (cloneT inner)) s with
  | (some c, s1) => (c, s1)
  | (none, s1) => (defaultCell T, s1)

/-- `Debug for CellOpt`: `self.apply_then_restore(|inner| write!(f,
"{}", format_args!("Option::Some({:?})", inner))).unwrap_or_else(||
write!(f, "None"))`.  `T`'s `Debug` rendering is the parameter `render`;
the text written to the formatter is returned together with the final
slot state. -/
def fmt_debug {T : Type} (render : T → String) (s : Option T) :
    String × Option T :=
  match apply_then_restore (fun inner =>
      "Option::Some(" ++ render inner ++ ")") s with
  | (some out, s1) => (out, s1)
  | (none, s1) => ("None", s1)

end CellOpt

/-- C1: for every container in state Occupied(v) and every pure function
f, apply_then_restore f returns some (f v) and leaves the container
Occupied(v) with the very same value v taken at the start (the source
re-inserts the taken `t`, not anything f constructed); for an Empty
container it returns none and leaves the container Empty. -/
theorem apply_then_restore_round_trip {T U : Type} (f : T → U) (v : T) :
    CellOpt.apply_then_restore f (some v) = (some (f v), some v) ∧
    CellOpt.apply_then_restore f (none : Option T) = (none, none) :=
  ⟨rfl, rfl⟩

/-- C2: take returns ok v and leaves the slot Empty exactly when the slot
was Occupied(v); it returns the EMPTY error exactly when the slot was
Empty, and in that case the slot's state is unchanged (still Empty).
The two conjuncts cover the two constructors of `Option T`, so each
outcome happens exactly in the stated case. -/
theorem take_spec {T : Type} (v : T) :
    CellOpt.take (some v) = (Except.ok v, none) ∧
    CellOpt.take (none : Option T) =
      (Except.error CellOpt.Error.empty, none) :=
  ⟨rfl, rfl⟩

/-- C3: starting from an Empty slot, insert v1 returns ok () and leaves
the slot Occupied(v1); a subsequent insert v2 returns the OCCUPIED error
carrying insert_try = v2 (the rejected value handed back unchanged), and
the slot still holds v1. -/
theorem insert_spec {T : Type} (v1 v2 : T) :
    CellOpt.insert (none : Option T) v1 = (Except.ok (), some v1) ∧
    CellOpt.insert (some v1) v2 =
      (Except.error ⟨v2, CellOpt.Error.occupied⟩, some v1) :=
  ⟨rfl, rfl⟩

/-- C4: for every container Occupied(v) and every function g,
apply_and_update g leaves the container Occupied(g v); for an Empty
container it leaves it Empty, performing no state change and surfacing
no error (the function returns no error channel at all). -/
theorem apply_and_update_spec {T : Type} (g : T → T) (v : T) :
    CellOpt.apply_and_update g (some v) = some (g v) ∧
    CellOpt.apply_and_update g (none : Option T) = none :=
  ⟨rfl, rfl⟩

/-- C5: the concrete scenario: after c = new 5, insert 7 fails with
OCCUPIED and insert_try = 7; then take returns ok 5; then insert 7
returns ok (); then take returns ok 7; then take returns the EMPTY
error.  Each step is applied to the state produced by the previous
step. -/
theorem scenario_c5 :
    CellOpt.insert (CellOpt.new (5 : Nat)) 7 =
      (Except.error ⟨7, CellOpt.Error.occupied⟩, some 5) ∧
    CellOpt.take (CellOpt.insert (CellOpt.new (5 : Nat)) 7).2 =
      (Except.ok 5, none) ∧
    CellOpt.insert
        (CellOpt.take (CellOpt.insert (CellOpt.new (5 : Nat)) 7).2).2 7 =
      (Except.ok (), some 7) ∧
    CellOpt.take
        (CellOpt.insert
          (CellOpt.take (CellOpt.insert (CellOpt.new (5 : Nat)) 7).2).2
          7).2 =
      (Except.ok 7, none) ∧
    CellOpt.take
        (CellOpt.take
          (CellOpt.insert
            (CellOpt.take (CellOpt.insert (CellOpt.new (5 : Nat)) 7).2).2
            7).2).2 =
      (Except.error CellOpt.Error.empty, none) :=
  ⟨rfl, rfl, rfl, rfl, rfl⟩

/-- C6: is_occupied returns true exactly on an Occupied slot and false
exactly on an Empty slot, and it has no net effect on the slot: when
Occupied the exact same value is reinstated, and iterating the state
effect of is_occupied any number of times changes neither a subsequent
take nor a subsequent clone_inner. -/
theorem is_occupied_read_only {T : Type} (v : T) (s : Option T)
    (cloneT : T → T) (n : Nat) :
    CellOpt.is_occupied (some v) = (true, some v) ∧
    CellOpt.is_occupied (none : Option T) = (false, none) ∧
    (fun st => (CellOpt.is_occupied st).2)^[n] s = s ∧
    CellOpt.take ((fun st => (CellOpt.is_occupied st).2)^[n] s) =
      CellOpt.take s ∧
    CellOpt.clone_inner cloneT
        ((fun st => (CellOpt.is_occupied st).2)^[n] s) =
      CellOpt.clone_inner cloneT s := by
  have hfix : (fun st => (CellOpt.is_occupied st).2) s = s := by
    cases s <;> rfl
  have hiter : (fun st => (CellOpt.is_occupied st).2)^[n] s = s :=
    Function.iterate_fixed hfix n
  exact ⟨rfl, rfl, hiter, by rw [hiter], by rw [hiter]⟩

/-- C7: for duplicable T (duplication modelled by cloneT), cloning a
container Occupied(v) produces a new container Occupied(cloneT v) while
the original is left Occupied(v); the two resulting slot states are
separate values, so mutating the clone (e.g. any apply_and_update g)
does not change the original's state; cloning an Empty container
produces a new Empty container. -/
theorem cellopt_clone_law {T : Type} (cloneT : T → T) (g : T → T)
    (v : T) :
    CellOpt.cellopt_clone cloneT (some v) = (some (cloneT v), some v) ∧
    CellOpt.apply_and_update g
        (CellOpt.cellopt_clone cloneT (some v)).1 =
      some (g (cloneT v)) ∧
    (CellOpt.cellopt_clone cloneT (some v)).2 = some v ∧
    CellOpt.cellopt_clone cloneT (none : Option T) = (none, none) :=
  ⟨rfl, rfl, rfl, rfl⟩

/-- C8: Debug formatting of a container Occupied(v) produces the
occupied-marker text "Option::Some(" ++ render v ++ ")", which embeds
v's own rendered form; formatting an Empty container produces the
distinct fixed marker "None"; in both cases the slot state is left
unchanged. -/
theorem fmt_debug_spec {T : Type} (render : T → String) (v : T) :
    CellOpt.fmt_debug render (some v) =
      ("Option::Some(" ++ render v ++ ")", some v) ∧
    (∃ pre post : String,
      (CellOpt.fmt_debug render (some v)).1 = pre ++ render v ++ post) ∧
    CellOpt.fmt_debug render (none : Option T) = ("None", none) ∧
    (CellOpt.fmt_debug render (some v)).1 ≠ "None" := by
  refine ⟨rfl, ⟨"Option::Some(", ")", rfl⟩, rfl, ?_⟩
  intro h
  have hl := congrArg String.length h
  rw [show (CellOpt.fmt_debug render (some v)).1 =
        "Option::Some(" ++ render v ++ ")" from rfl] at hl
  rw [String.length_append, String.length_append] at hl
  have h13 : ("Option::Some(" : String).length = 13 := by decide
  have h1 : ((")" : String)).length = 1 := by decide
  have h4 : ("None" : String).length = 4 := by decide
  rw [h13, h1, h4] at hl
  omega

/-- C9: under the precondition that the slot is Occupied(v), force_take
returns v and leaves the slot Empty (the panic branch of unwrap is
never reached, so a value is returned); on an Empty slot force_take
faults (modelled as none) rather than returning a value. -/
theorem force_take_spec {T : Type} (s : Option T) (v : T)
    (h : s = some v) :
    CellOpt.force_take s = some (v, none) ∧
    CellOpt.force_take (none : Option T) = none := by
  subst h
  exact ⟨rfl, rfl⟩

/-- C9 witness: the theorem applied at the concrete slot some 3. -/
theorem force_take_spec_witness :
    CellOpt.force_take (some (3 : Nat)) = some (3, none) ∧
    CellOpt.force_take (none : Option Nat) = none :=
  force_take_spec (some 3) 3 rfl

/-- C10: on an Empty container, apply_then_restore never invokes the
callback at all: with the callback's FnMut capture state made explicit,
the capture state comes back untouched and the result does not depend
on the callback; likewise clone_inner on an Empty container returns
none without ever invoking T's duplication (the result is the same for
every duplication function). -/
theorem empty_never_invokes_callback {S T U : Type} (f : S → T → S × U)
    (fs : S) (cloneT cloneT2 : T → T) :
    CellOpt.apply_then_restore_fnmut f fs (none : Option T) =
      (none, fs, none) ∧
    CellOpt.clone_inner cloneT (none : Option T) = (none, none) ∧
    CellOpt.clone_inner cloneT (none : Option T) =
      CellOpt.clone_inner cloneT2 (none : Option T) :=
  ⟨rfl, rfl, rfl⟩
